import Mathlib

/-!
Verification of the Temple Finder proximity-search pipeline.

The development shallowly embeds the `/api/temples` route of the Express
server (file `src/unnamed/part_001`, the `startServer` function) together
with its `getDistance` helper, and the shape of the `temples` table from
`src/db.ts` (columns `lat REAL, lng REAL`, both nullable).

Modelling conventions:
- JavaScript numbers flowing through the route are modelled by `JSNum`,
  an `Option ℝ` where `none` stands for NaN and `some x` for the real
  value `x` (IEEE rounding is idealised away; infinities do not arise in
  this pipeline).  Every arithmetic operation of the route propagates
  NaN, which the lifted operations below reproduce.
- SQL `NULL` in the `lat`/`lng` columns reaches JavaScript as `null`;
  every arithmetic operation the route applies to it coerces it to `0`
  (`ToNumber(null) = 0`), so a nullable column value `Option ℝ` enters
  `getDistance` as `some (v.getD 0)`.
- Query-string parameters are strings; `lat`/`lng`/`radius` are given
  here as already-parsed `Option JSNum`: `none` when the parameter is
  absent or the empty string (falsy), `some v` when it was supplied and
  `parseFloat` produced `v` (`v = none` when it produced NaN).
-/

open Real (pi)

/-- JavaScript `Math.atan2`, piecewise by the sign of the second
argument; `atan2 0 0 = 0` as in IEEE / ECMAScript. -/
noncomputable def atan2 (y x : ℝ) : ℝ :=
  if 0 < x then Real.arctan (y / x)
  else if x = 0 then
    (if 0 < y then pi / 2 else if y < 0 then -(pi / 2) else 0)
  else if 0 ≤ y then Real.arctan (y / x) + pi
  else Real.arctan (y / x) - pi

/-- The server's `getDistance(lat1, lon1, lat2, lon2)` helper: haversine
great-circle distance in kilometres with Earth radius `R = 6371`,
transcribed line by line from the source. -/
noncomputable def getDistance (lat1 lon1 lat2 lon2 : ℝ) : ℝ :=
  let R : ℝ := 6371
  let dLat := (lat2 - lat1) * pi / 180
  let dLon := (lon2 - lon1) * pi / 180
  let a := Real.sin (dLat / 2) * Real.sin (dLat / 2) +
    Real.cos (lat1 * pi / 180) * Real.cos (lat2 * pi / 180) *
    Real.sin (dLon / 2) * Real.sin (dLon / 2)
  let c := 2 * atan2 (Real.sqrt a) (Real.sqrt (1 - a))
  R * c

/-- Half-angle identity in product form. -/
lemma sin_half_mul_self (d : ℝ) :
    Real.sin (d / 2) * Real.sin (d / 2) = (1 - Real.cos d) / 2 := by
  have h := Real.cos_two_mul (d / 2)
  have h2 : (2 : ℝ) * (d / 2) = d := by ring
  rw [h2] at h
  linear_combination Real.sin_sq_add_cos_sq (d / 2) + h / 2

/-- The quantity `sin φ1 * sin φ2 + cos φ1 * cos φ2 * t` is in `[-1, 1]`
whenever `t` is; it interpolates between `cos (φ1 - φ2)` and
`-cos (φ1 + φ2)`. -/
lemma sin_mul_add_cos_mul_bounds (p q t : ℝ) (h1 : -1 ≤ t) (h2 : t ≤ 1) :
    -1 ≤ Real.sin p * Real.sin q + Real.cos p * Real.cos q * t ∧
      Real.sin p * Real.sin q + Real.cos p * Real.cos q * t ≤ 1 := by
  have hc1 := Real.neg_one_le_cos (p - q)
  have hc2 := Real.cos_le_one (p - q)
  have hc3 := Real.neg_one_le_cos (p + q)
  have hc4 := Real.cos_le_one (p + q)
  rw [Real.cos_sub] at hc1 hc2
  rw [Real.cos_add] at hc3 hc4
  constructor <;> rcases le_or_lt 0 (Real.cos p * Real.cos q) with h | h <;>
    nlinarith

/-- The haversine intermediate value `a` computed by `getDistance` lies
in `[0, 1]` for arbitrary real inputs, so neither square root in the
source can see a negative argument. -/
lemma havA_bounds (p q d : ℝ) :
    0 ≤ Real.sin ((q - p) / 2) * Real.sin ((q - p) / 2) +
        Real.cos p * Real.cos q * Real.sin (d / 2) * Real.sin (d / 2) ∧
      Real.sin ((q - p) / 2) * Real.sin ((q - p) / 2) +
        Real.cos p * Real.cos q * Real.sin (d / 2) * Real.sin (d / 2) ≤ 1 := by
  have e1 : Real.sin ((q - p) / 2) * Real.sin ((q - p) / 2)
      = (1 - (Real.cos q * Real.cos p + Real.sin q * Real.sin p)) / 2 := by
    have h := sin_half_mul_self (q - p)
    rw [Real.cos_sub] at h
    linarith
  have e2 := sin_half_mul_self d
  have h3 := sin_mul_add_cos_mul_bounds p q (Real.cos d)
    (Real.neg_one_le_cos d) (Real.cos_le_one d)
  have eA : Real.sin ((q - p) / 2) * Real.sin ((q - p) / 2) +
      Real.cos p * Real.cos q * Real.sin (d / 2) * Real.sin (d / 2)
      = (1 - (Real.sin p * Real.sin q + Real.cos p * Real.cos q * Real.cos d)) / 2 := by
    linear_combination e1 + (Real.cos p * Real.cos q) * e2
  rw [eA]
  constructor <;> linarith [h3.1, h3.2]

/-- `atan2 0 x = 0` for positive `x`. -/
lemma atan2_zero_pos (x : ℝ) (hx : 0 < x) : atan2 0 x = 0 := by
  rw [atan2, if_pos hx, zero_div, Real.arctan_zero]

/-- The distance from any point to itself is `0` (any real coordinates,
valid or not). -/
lemma getDistance_self (lat lon : ℝ) : getDistance lat lon lat lon = 0 := by
  show (6371 : ℝ) * _ = 0
  rw [sub_self, sub_self, zero_mul, zero_div, zero_div, Real.sin_zero]
  norm_num
  exact atan2_zero_pos 1 one_pos

/-- A JavaScript number in this pipeline: `none` is NaN, `some x` the
real value `x`. -/
abbrev JSNum := Option ℝ

/-- JavaScript `+` on numbers (NaN-propagating). -/
noncomputable def jadd : JSNum → JSNum → JSNum
  | some x, some y => some (x + y)
  | _, _ => none

/-- JavaScript binary `-` on numbers (NaN-propagating). -/
noncomputable def jsub : JSNum → JSNum → JSNum
  | some x, some y => some (x - y)
  | _, _ => none

/-- JavaScript `*` on numbers (NaN-propagating). -/
noncomputable def jmul : JSNum → JSNum → JSNum
  | some x, some y => some (x * y)
  | _, _ => none

/-- JavaScript `/` on numbers (NaN-propagating; division by zero would
give an infinity, but every divisor in the route is the constant `180`
or `2`, so that case never arises). -/
noncomputable def jdiv : JSNum → JSNum → JSNum
  | some x, some y => some (x / y)
  | _, _ => none

/-- JavaScript `Math.sin` (NaN-propagating). -/
noncomputable def jsin : JSNum → JSNum
  | some x => some (Real.sin x)
  | none => none

/-- JavaScript `Math.cos` (NaN-propagating). -/
noncomputable def jcos : JSNum → JSNum
  | some x => some (Real.cos x)
  | none => none

/-- JavaScript `Math.sqrt`: NaN on NaN and on negative arguments. -/
noncomputable def jsqrt : JSNum → JSNum
  | some x => if x < 0 then none else some (Real.sqrt x)
  | none => none

/-- JavaScript `Math.atan2` (NaN-propagating, total otherwise). -/
noncomputable def jatan2 : JSNum → JSNum → JSNum
  | some y, some x => some (atan2 y x)
  | _, _ => none

/-- The body of `getDistance` under JavaScript number semantics: the
same operations as `getDistance`, with each one lifted to `JSNum` so
that a NaN input (a non-numeric `parseFloat` result) flows through the
computation exactly as it does in the source. -/
noncomputable def getDistanceJS (lat1 lon1 lat2 lon2 : JSNum) : JSNum :=
  let R : JSNum := some 6371
  let dLat := jdiv (jmul (jsub lat2 lat1) (some pi)) (some 180)
  let dLon := jdiv (jmul (jsub lon2 lon1) (some pi)) (some 180)
  let a := jadd (jmul (jsin (jdiv dLat (some 2))) (jsin (jdiv dLat (some 2))))
    (jmul (jmul (jmul (jcos (jdiv (jmul lat1 (some pi)) (some 180)))
          (jcos (jdiv (jmul lat2 (some pi)) (some 180))))
        (jsin (jdiv dLon (some 2))))
      (jsin (jdiv dLon (some 2))))
  let c := jmul (some 2) (jatan2 (jsqrt a) (jsqrt (jsub (some 1) a)))
  jmul R c

/-- On genuine (non-NaN) numbers, `getDistanceJS` computes exactly the
real-valued `getDistance`; in particular neither `Math.sqrt` call can
produce NaN, because the haversine intermediate value lies in `[0, 1]`. -/
lemma getDistanceJS_some (lat1 lon1 lat2 lon2 : ℝ) :
    getDistanceJS (some lat1) (some lon1) (some lat2) (some lon2)
      = some (getDistance lat1 lon1 lat2 lon2) := by
  have hb := havA_bounds (lat1 * pi / 180) (lat2 * pi / 180) ((lon2 - lon1) * pi / 180)
  have harg : (lat2 * pi / 180 - lat1 * pi / 180) / 2 = (lat2 - lat1) * pi / 180 / 2 := by
    ring
  rw [harg] at hb
  simp only [getDistanceJS, getDistance, jsub, jmul, jdiv, jadd, jsin, jcos, jatan2, jsqrt]
  rw [if_neg (not_lt.2 hb.1), if_neg (not_lt.2 (by linarith [hb.2]))]

/-- NaN in the first coordinate propagates to a NaN distance. -/
lemma getDistanceJS_nan_lat1 (lon1 lat2 lon2 : JSNum) :
    getDistanceJS none lon1 lat2 lon2 = none := by
  cases lon1 <;> cases lat2 <;> cases lon2 <;> rfl

/-- NaN in the second coordinate propagates to a NaN distance. -/
lemma getDistanceJS_nan_lon1 (lat1 lat2 lon2 : JSNum) :
    getDistanceJS lat1 none lat2 lon2 = none := by
  cases lat1 <;> cases lat2 <;> cases lon2 <;> rfl

/-- One row of the `temples` table, restricted to the columns the
search route interprets; `lat`/`lng` are `REAL` columns that may be
`NULL` (`db.ts` declares no constraint on them). -/
structure Temple where
  id : ℕ
  name : String
  type : String
  city : String
  lat : Option ℝ
  lng : Option ℝ

/-- A row as returned by the ranked branch of the route: the handler
assigns `t.distance = d` on each row object before filtering. -/
structure RankedTemple where
  temple : Temple
  distance : JSNum

/-- SQLite `LIKE '%pattern%'`: case-insensitive (ASCII) substring
match. -/
def likeCI (pattern s : String) : Bool :=
  decide ((pattern.toLower).toList <:+: (s.toLower).toList)

/-- The `SELECT * FROM temples WHERE 1=1 [AND city LIKE ?] [AND type IN
(...)]` query built by the route.  `cityQ`/`typeQ` are `none` when the
query parameter was absent or empty (falsy), in which case the
corresponding clause is not added. -/
def sqlFilter (catalog : List Temple) (cityQ typeQ : Option String) : List Temple :=
  catalog.filter (fun t =>
    (match cityQ with
      | some c => likeCI c t.city
      | none => true) &&
    (match typeQ with
      | some ty => (ty.splitOn ",").contains t.type
      | none => true))

/-- JavaScript `<=` on numbers: false whenever either side is NaN. -/
noncomputable def jle (a b : JSNum) : Bool :=
  match a, b with
  | some x, some y => decide (x ≤ y)
  | _, _ => false

/-- The comparator `(a, b) => a.distance - b.distance` passed to
`Array.prototype.sort`, as a boolean "ordered before or equal"
relation.  After the radius filter every element has a non-NaN
distance, so the NaN rows of this table are never reached; they are
chosen so that the relation is total and transitive. -/
noncomputable def distLe (a b : RankedTemple) : Bool :=
  match a.distance, b.distance with
  | some x, some y => decide (x ≤ y)
  | none, _ => true
  | some _, none => false

/-- The ranked branch of the route: annotate every row with its
distance to the reference point (a `NULL` coordinate reaches
`getDistance` as JavaScript `null` and is coerced to `0` by its
arithmetic), keep the rows with `d <= r`, then sort ascending by
distance (`Array.prototype.sort` is stable, as is `mergeSort`). -/
noncomputable def rankTemples (temples : List Temple) (userLat userLng r : JSNum) :
    List RankedTemple :=
  let annotated := temples.map (fun t =>
    ⟨t, getDistanceJS userLat userLng (some (t.lat.getD 0)) (some (t.lng.getD 0))⟩)
  (annotated.filter (fun rt => jle rt.distance r)).mergeSort distLe

/-- The `/api/temples` handler: run the SQL filter, and when both `lat`
and `lng` were supplied and truthy, rank by proximity with radius
defaulting to `10`; otherwise return the filtered rows unannotated. -/
noncomputable def templesHandler (catalog : List Temple) (cityQ typeQ : Option String)
    (latQ lngQ radiusQ : Option JSNum) : List Temple ⊕ List RankedTemple :=
  let temples := sqlFilter catalog cityQ typeQ
  match latQ, lngQ with
  | some userLat, some userLng =>
      let r := radiusQ.getD (some 10)
      Sum.inr (rankTemples temples userLat userLng r)
  | _, _ => Sum.inl temples

/-- The route as a state transformer on the database: the handler runs
only `SELECT` statements (its single `db.prepare(query).all(...)`
call), so the catalog it threads through is returned unchanged. -/
noncomputable def templesRoute (db : List Temple) (cityQ typeQ : Option String)
    (latQ lngQ radiusQ : Option JSNum) :
    (List Temple ⊕ List RankedTemple) × List Temple :=
  (templesHandler db cityQ typeQ latQ lngQ radiusQ, db)

/-- Modelled from the spec's formula text (section 4.1): the haversine
formula exactly as the spec words it, with `sin²` written as a square.
This definition is compared against the source's `getDistance`. -/
noncomputable def distanceSpec (lat1 lon1 lat2 lon2 : ℝ) : ℝ :=
  let dLat := (lat2 - lat1) * pi / 180
  let dLon := (lon2 - lon1) * pi / 180
  let a := Real.sin (dLat / 2) ^ 2 +
    Real.cos (lat1 * pi / 180) * Real.cos (lat2 * pi / 180) * Real.sin (dLon / 2) ^ 2
  let c := 2 * atan2 (Real.sqrt a) (Real.sqrt (1 - a))
  6371 * c

/-- C3: for valid coordinates, `getDistance` is exactly the haversine
great-circle distance of the spec, with Earth radius 6371 km. -/
theorem getDistance_matches_spec (lat1 lon1 lat2 lon2 : ℝ)
    (hlat1 : -90 ≤ lat1 ∧ lat1 ≤ 90) (hlat2 : -90 ≤ lat2 ∧ lat2 ≤ 90)
    (hlon1 : -180 ≤ lon1 ∧ lon1 ≤ 180) (hlon2 : -180 ≤ lon2 ∧ lon2 ≤ 180) :
    getDistance lat1 lon1 lat2 lon2 = distanceSpec lat1 lon1 lat2 lon2 := by
  simp only [getDistance, distanceSpec]
  ring_nf

/-- Witness for C3 at the coordinate origin. -/
theorem getDistance_matches_spec_witness :
    getDistance 0 0 0 0 = distanceSpec 0 0 0 0 :=
  getDistance_matches_spec 0 0 0 0 (by norm_num) (by norm_num) (by norm_num)
    (by norm_num)

/-- C7: the distance function is symmetric in its two coordinate
arguments, for arbitrary real inputs. -/
theorem getDistance_symm (lat1 lon1 lat2 lon2 : ℝ) :
    getDistance lat1 lon1 lat2 lon2 = getDistance lat2 lon2 lat1 lon1 := by
  simp only [getDistance]
  have key : ∀ u v : ℝ,
      Real.sin ((u - v) * pi / 180 / 2) * Real.sin ((u - v) * pi / 180 / 2)
        = Real.sin ((v - u) * pi / 180 / 2) * Real.sin ((v - u) * pi / 180 / 2) := by
    intro u v
    have h : (u - v) * pi / 180 / 2 = -((v - u) * pi / 180 / 2) := by ring
    rw [h, Real.sin_neg]
    ring
  have key2 : ∀ u v w z : ℝ,
      w * z * Real.sin ((u - v) * pi / 180 / 2) * Real.sin ((u - v) * pi / 180 / 2)
        = w * z * Real.sin ((v - u) * pi / 180 / 2) * Real.sin ((v - u) * pi / 180 / 2) := by
    intro u v w z
    have h : (u - v) * pi / 180 / 2 = -((v - u) * pi / 180 / 2) := by ring
    rw [h, Real.sin_neg]
    ring
  rw [key lat2 lat1,
    key2 lon2 lon1 (Real.cos (lat1 * pi / 180)) (Real.cos (lat2 * pi / 180))]
  ring_nf

/-- Two distinct valid coordinates at the north pole are at haversine
distance `0`: the latitude difference vanishes and `cos (pi / 2) = 0`
kills the longitude term. -/
lemma getDistance_pole : getDistance 90 0 90 90 = 0 := by
  have h1 : ((90 : ℝ) - 90) * pi / 180 = 0 := by ring
  have h2 : (90 : ℝ) * pi / 180 = pi / 2 := by ring
  simp only [getDistance, h1, h2, zero_div, Real.sin_zero, Real.cos_pi_div_two]
  norm_num
  exact atan2_zero_pos 1 one_pos

/-- C6 counterexample: the coordinates `(90, 0)` and `(90, 90)` are
valid, distinct as numbers, and `getDistance` returns `0` on them, so
`distance = 0` does not imply coordinate equality. -/
theorem getDistance_zero_iff_cex :
    getDistance 90 0 90 90 = 0 ∧ ¬(((90 : ℝ) = 90) ∧ ((0 : ℝ) = 90)) ∧
      (-90 ≤ (90 : ℝ) ∧ (90 : ℝ) ≤ 90) ∧
      (-180 ≤ (0 : ℝ) ∧ (0 : ℝ) ≤ 180) ∧ (-180 ≤ (90 : ℝ) ∧ (90 : ℝ) ≤ 180) :=
  ⟨getDistance_pole, by norm_num, by norm_num, by norm_num, by norm_num⟩

/-- C6 amended: `distance (a, a) = 0` holds for every coordinate, but
the converse fails: there are two distinct valid coordinates with
distance `0` (longitudes collapse at a pole). -/
theorem getDistance_zero_iff_amended :
    (∀ lat lon : ℝ, getDistance lat lon lat lon = 0) ∧
      ∃ lat1 lon1 lat2 lon2 : ℝ, ¬(lat1 = lat2 ∧ lon1 = lon2) ∧
        (-90 ≤ lat1 ∧ lat1 ≤ 90) ∧ (-90 ≤ lat2 ∧ lat2 ≤ 90) ∧
        (-180 ≤ lon1 ∧ lon1 ≤ 180) ∧ (-180 ≤ lon2 ∧ lon2 ≤ 180) ∧
        getDistance lat1 lon1 lat2 lon2 = 0 :=
  ⟨getDistance_self,
    ⟨90, 0, 90, 90, by norm_num, by norm_num, by norm_num, by norm_num,
      by norm_num, getDistance_pole⟩⟩

/-- A true JavaScript `<=` has genuine numbers (not NaN) on both sides. -/
lemma jle_some (a b : JSNum) (h : jle a b = true) :
    ∃ x y, a = some x ∧ b = some y ∧ x ≤ y := by
  cases a with
  | none => simp [jle] at h
  | some x =>
    cases b with
    | none => simp [jle] at h
    | some y =>
      simp only [jle, decide_eq_true_eq] at h
      exact ⟨x, y, rfl, rfl, h⟩

/-- Nothing compares `<=` against NaN. -/
lemma jle_none_right (a : JSNum) : jle a none = false := by
  cases a <;> rfl

/-- The sort comparator is transitive. -/
lemma distLe_trans (a b c : RankedTemple) (hab : distLe a b = true)
    (hbc : distLe b c = true) : distLe a c = true := by
  rcases a with ⟨ta, da⟩
  rcases b with ⟨tb, db⟩
  rcases c with ⟨tc, dc⟩
  cases da <;> cases db <;> cases dc <;>
    simp_all only [distLe, decide_eq_true_eq] <;>
    first
    | exact le_trans hab hbc
    | exact absurd hab Bool.false_ne_true

/-- The sort comparator is total. -/
lemma distLe_total (a b : RankedTemple) : distLe a b || distLe b a := by
  rcases a with ⟨ta, da⟩
  rcases b with ⟨tb, db⟩
  cases da <;> cases db <;> simp only [distLe, Bool.or_true, Bool.true_or]
  rename_i x y
  rcases le_total x y with h | h <;> simp [h]

/-- C1: whenever a reference point is supplied, every row of the ranked
response carries a distance that is at most the request's effective
radius (the parsed `radius` parameter, or `10` when it was absent). -/
theorem ranked_within_radius (catalog : List Temple) (cityQ typeQ : Option String)
    (ul ug : JSNum) (radiusQ : Option JSNum) (out : List RankedTemple)
    (h : templesHandler catalog cityQ typeQ (some ul) (some ug) radiusQ = Sum.inr out) :
    ∀ rt ∈ out, jle rt.distance (radiusQ.getD (some 10)) = true := by
  intro rt hrt
  simp only [templesHandler, Sum.inr.injEq] at h
  subst h
  simp only [rankTemples, List.mem_mergeSort, List.mem_filter] at hrt
  exact hrt.2

/-- C2: whenever a reference point is supplied, the ranked response is
non-decreasing in the attached distance on every adjacent pair. -/
theorem ranked_sorted (catalog : List Temple) (cityQ typeQ : Option String)
    (ul ug : JSNum) (radiusQ : Option JSNum) (out : List RankedTemple)
    (h : templesHandler catalog cityQ typeQ (some ul) (some ug) radiusQ = Sum.inr out) :
    List.Chain' (fun a b => jle a.distance b.distance = true) out := by
  simp only [templesHandler, Sum.inr.injEq] at h
  subst h
  simp only [rankTemples]
  apply List.Pairwise.chain'
  apply List.Pairwise.imp_of_mem ?_ (List.sorted_mergeSort distLe_trans distLe_total _)
  intro a b ha hb hab
  rw [List.mem_mergeSort, List.mem_filter] at ha hb
  obtain ⟨xa, ra, ea, -, -⟩ := jle_some _ _ ha.2
  obtain ⟨xb, rb, eb, -, -⟩ := jle_some _ _ hb.2
  simp only [distLe, ea, eb] at hab
  simp only [jle, ea, eb]
  exact hab

/-- A catalog row at the coordinate origin. -/
def T0 : Temple := ⟨1, "a", "Hindu", "Pune", some 0, some 0⟩

/-- A catalog row at the north pole. -/
def T1 : Temple := ⟨2, "b", "Hindu", "Pune", some 90, some 0⟩

/-- A catalog row whose `lat`/`lng` columns are SQL `NULL`. -/
def TNull : Temple := ⟨3, "c", "Hindu", "Pune", none, none⟩

/-- A catalog row with an out-of-range latitude stored in the `REAL`
column. -/
def TFar : Temple := ⟨4, "d", "Hindu", "Pune", some 100, some 0⟩

/-- `atan2 x x = pi / 4` for positive `x`. -/
lemma atan2_self_pos (x : ℝ) (hx : 0 < x) : atan2 x x = pi / 4 := by
  rw [atan2, if_pos hx, div_self (ne_of_gt hx), Real.arctan_one]

/-- Distance from the origin to the north pole: a quarter great
circle. -/
lemma getDistance_origin_pole : getDistance 0 0 90 0 = 6371 * (pi / 2) := by
  have h1 : ((90 : ℝ) - 0) * pi / 180 = pi / 2 := by ring
  have h2 : ((0 : ℝ) - 0) * pi / 180 = 0 := by ring
  have h3 : (0 : ℝ) * pi / 180 = 0 := by ring
  have h4 : pi / 2 / 2 = pi / 4 := by ring
  simp only [getDistance, h1, h2, h3, h4, zero_div, Real.sin_zero, Real.cos_zero,
    Real.sin_pi_div_four]
  have h5 : Real.sqrt 2 / 2 * (Real.sqrt 2 / 2) = 1 / 2 := by
    rw [div_mul_div_comm, Real.mul_self_sqrt (by norm_num)]
    norm_num
  rw [h5]
  norm_num
  rw [atan2_self_pos _ (by positivity)]
  ring

/-- C4 counterexample: a catalog row with `NULL` coordinates is not
excluded from a ranked search; with the reference point at the origin
it is returned with distance `0`, because JavaScript coerces its `null`
coordinates to `0`. -/
theorem null_location_not_excluded_cex :
    templesHandler [TNull] none none (some (some 0)) (some (some 0)) none
      = Sum.inr [⟨TNull, some 0⟩] ∧
      (⟨TNull, some 0⟩ : RankedTemple) ∈ [(⟨TNull, some 0⟩ : RankedTemple)] := by
  refine ⟨?_, List.mem_singleton_self _⟩
  have hd : getDistanceJS (some (0 : ℝ)) (some (0 : ℝ)) (some (0 : ℝ)) (some (0 : ℝ))
      = some 0 := by
    rw [getDistanceJS_some, getDistance_self]
  have hj : jle (some (0 : ℝ)) (some 10) = true := by
    simp only [jle, decide_eq_true_eq]
    norm_num
  simp [templesHandler, sqlFilter, rankTemples, TNull, hd, hj]

/-- C4 amended: during a ranked search, a catalog entry whose `lat` and
`lng` are `NULL` is not excluded; its coordinates are coerced to `0`,
it is ranked as if located at `(0, 0)`, and it appears in the result
exactly when that distance passes the radius test.  No error is raised
and other entries are unaffected. -/
theorem null_location_ranked_at_origin (ts : List Temple) (ul ug : ℝ) (r : JSNum)
    (t : Temple) (h1 : t.lat = none) (h2 : t.lng = none) (hmem : t ∈ ts) :
    ((⟨t, some (getDistance ul ug 0 0)⟩ : RankedTemple)
        ∈ rankTemples ts (some ul) (some ug) r
      ↔ jle (some (getDistance ul ug 0 0)) r = true) := by
  simp only [rankTemples, List.mem_mergeSort, List.mem_filter]
  constructor
  · rintro ⟨-, hpred⟩
    exact hpred
  · intro hpred
    refine ⟨List.mem_map.2 ⟨t, hmem, ?_⟩, hpred⟩
    rw [h1, h2]
    simp [getDistanceJS_some]

/-- Witness for C4's amended statement on a one-row catalog. -/
theorem null_location_ranked_at_origin_witness :
    ((⟨TNull, some (getDistance 0 0 0 0)⟩ : RankedTemple)
        ∈ rankTemples [TNull] (some 0) (some 0) (some 10)
      ↔ jle (some (getDistance 0 0 0 0)) (some 10) = true) :=
  null_location_ranked_at_origin [TNull] 0 0 (some 10) TNull rfl rfl
    (List.mem_singleton_self _)

/-- C5 counterexample: a request whose reference latitude is `100`
(outside `[-90, 90]`) is not rejected: the handler runs the ranking
with the invalid coordinate as-is and returns a normal ranked
response. -/
theorem invalid_reference_processed_cex :
    templesHandler [TFar] none none (some (some 100)) (some (some 0)) none
      = Sum.inr [⟨TFar, some 0⟩] ∧ ¬((100 : ℝ) ≤ 90) := by
  refine ⟨?_, by norm_num⟩
  have hd : getDistanceJS (some (100 : ℝ)) (some (0 : ℝ)) (some (100 : ℝ)) (some (0 : ℝ))
      = some 0 := by
    rw [getDistanceJS_some, getDistance_self]
  have hj : jle (some (0 : ℝ)) (some 10) = true := by
    simp only [jle, decide_eq_true_eq]
    norm_num
  simp [templesHandler, sqlFilter, rankTemples, TFar, hd, hj]

/-- C5 amended: the handler performs no range validation on the
reference point.  Whatever real values the `lat`/`lng` parameters parse
to — in range or not — are passed as-is into the haversine ranking, and
the request is always answered with a ranked response, never a
validation failure. -/
theorem no_coordinate_validation (catalog : List Temple) (cityQ typeQ : Option String)
    (ul ug : ℝ) (radiusQ : Option JSNum) :
    templesHandler catalog cityQ typeQ (some (some ul)) (some (some ug)) radiusQ
      = Sum.inr (rankTemples (sqlFilter catalog cityQ typeQ) (some ul) (some ug)
          (radiusQ.getD (some 10))) := rfl

/-- NaN on the left of `<=` is never true. -/
lemma jle_none_left (b : JSNum) : jle none b = false := rfl

/-- Witness for C1 on a one-row catalog at the reference point. -/
theorem ranked_within_radius_witness : jle (some (0 : ℝ)) (some 10) = true :=
  ranked_within_radius [T0] none none (some 0) (some 0) none [⟨T0, some 0⟩]
    (by
      have hd : getDistanceJS (some (0 : ℝ)) (some (0 : ℝ)) (some (0 : ℝ)) (some (0 : ℝ))
          = some 0 := by
        rw [getDistanceJS_some, getDistance_self]
      have hj : jle (some (0 : ℝ)) (some 10) = true := by
        simp only [jle, decide_eq_true_eq]
        norm_num
      have e0a : T0.lat = some 0 := rfl
      have e0b : T0.lng = some 0 := rfl
      simp [templesHandler, sqlFilter, rankTemples, e0a, e0b, hd, hj])
    ⟨T0, some 0⟩ (List.mem_singleton_self _)

/-- Witness for C2 on a two-row catalog with distinct distances. -/
theorem ranked_sorted_witness :
    List.Chain' (fun a b : RankedTemple => jle a.distance b.distance = true)
      [⟨T0, some 0⟩, ⟨T1, some (6371 * (pi / 2))⟩] := by
  have hd0 : getDistanceJS (some (0 : ℝ)) (some (0 : ℝ)) (some (0 : ℝ)) (some (0 : ℝ))
      = some 0 := by
    rw [getDistanceJS_some, getDistance_self]
  have hd1 : getDistanceJS (some (0 : ℝ)) (some (0 : ℝ)) (some (90 : ℝ)) (some (0 : ℝ))
      = some (6371 * (pi / 2)) := by
    rw [getDistanceJS_some, getDistance_origin_pole]
  have hj0 : jle (some (0 : ℝ)) (some 20000) = true := by
    simp only [jle, decide_eq_true_eq]
    norm_num
  have hj1 : jle (some (6371 * (pi / 2))) (some (20000 : ℝ)) = true := by
    simp only [jle, decide_eq_true_eq]
    nlinarith [Real.pi_lt_d2]
  have hsorted : List.Pairwise (fun a b : RankedTemple => distLe a b = true)
      [⟨T0, some 0⟩, ⟨T1, some (6371 * (pi / 2))⟩] := by
    refine List.Pairwise.cons ?_ (List.pairwise_singleton _ _)
    intro b hb
    rw [List.mem_singleton] at hb
    subst hb
    simp only [distLe, decide_eq_true_eq]
    positivity
  have e0a : T0.lat = some 0 := rfl
  have e0b : T0.lng = some 0 := rfl
  have e1a : T1.lat = some 90 := rfl
  have e1b : T1.lng = some 0 := rfl
  exact ranked_sorted [T0, T1] none none (some 0) (some 0) (some (some 20000))
    [⟨T0, some 0⟩, ⟨T1, some (6371 * (pi / 2))⟩]
    (by simp [templesHandler, sqlFilter, rankTemples, e0a, e0b, e1a, e1b, hd0, hd1,
      hj0, hj1, List.mergeSort_of_sorted hsorted])

/-- C8: with a reference point and no `radius` parameter, the handler
behaves exactly as if `radius=10` had been supplied; without a
reference point, the radius parameter has no effect at all. -/
theorem radius_defaults_and_ignored (catalog : List Temple) (cityQ typeQ : Option String) :
    (∀ ul ug : JSNum,
      templesHandler catalog cityQ typeQ (some ul) (some ug) none
        = templesHandler catalog cityQ typeQ (some ul) (some ug) (some (some 10))) ∧
    (∀ latQ lngQ r1 r2 : Option JSNum, latQ = none ∨ lngQ = none →
      templesHandler catalog cityQ typeQ latQ lngQ r1
        = templesHandler catalog cityQ typeQ latQ lngQ r2) := by
  refine ⟨fun ul ug => rfl, ?_⟩
  rintro latQ lngQ r1 r2 (rfl | rfl)
  · rfl
  · cases latQ <;> rfl

/-- Witness for C8 at concrete parameter values. -/
theorem radius_defaults_and_ignored_witness :
    (templesHandler [T0] none none (some (some 1)) (some (some 2)) none
      = templesHandler [T0] none none (some (some 1)) (some (some 2)) (some (some 10))) ∧
    (templesHandler [T0] none none none (some (some 1)) (some (some 3))
      = templesHandler [T0] none none none (some (some 1)) (some (some 7))) :=
  ⟨(radius_defaults_and_ignored [T0] none none).1 (some 1) (some 2),
    (radius_defaults_and_ignored [T0] none none).2 none (some (some 1)) (some (some 3))
      (some (some 7)) (Or.inl rfl)⟩

/-- C9: the search is deterministic and leaves the catalog untouched:
running the route twice in sequence on the threaded database state
gives the same response both times, and the state after both runs is
the original catalog. -/
theorem search_pure_deterministic (db : List Temple) (cityQ typeQ : Option String)
    (latQ lngQ radiusQ : Option JSNum) :
    (templesRoute db cityQ typeQ latQ lngQ radiusQ).1
        = (templesRoute (templesRoute db cityQ typeQ latQ lngQ radiusQ).2
            cityQ typeQ latQ lngQ radiusQ).1
      ∧ (templesRoute (templesRoute db cityQ typeQ latQ lngQ radiusQ).2
            cityQ typeQ latQ lngQ radiusQ).2 = db :=
  ⟨rfl, rfl⟩

/-- The ranked branch returns the empty list as soon as the radius test
fails on every row. -/
lemma rankTemples_eq_nil (ts : List Temple) (ul ug r : JSNum)
    (h : ∀ t ∈ ts,
      jle (getDistanceJS ul ug (some (t.lat.getD 0)) (some (t.lng.getD 0))) r = false) :
    rankTemples ts ul ug r = [] := by
  simp only [rankTemples]
  have hnil : List.filter (fun rt => jle rt.distance r)
      (ts.map fun t =>
        (⟨t, getDistanceJS ul ug (some (t.lat.getD 0)) (some (t.lng.getD 0))⟩ :
          RankedTemple)) = [] := by
    rw [List.filter_eq_nil_iff]
    intro rt hrt
    obtain ⟨t, ht, rfl⟩ := List.mem_map.1 hrt
    simp [h t ht]
  rw [hnil, List.mergeSort_nil]

/-- C10: with both position parameters supplied, a NaN parse of `lat`,
`lng`, or a supplied `radius` makes the search return the empty list —
no error, and no fallback to the default radius — because `d <= r`
is false whenever either side is NaN. -/
theorem nan_parse_empty (catalog : List Temple) (cityQ typeQ : Option String)
    (ul ug : JSNum) (radiusQ : Option JSNum)
    (h : ul = none ∨ ug = none ∨ radiusQ = some none) :
    templesHandler catalog cityQ typeQ (some ul) (some ug) radiusQ = Sum.inr [] := by
  simp only [templesHandler, Sum.inr.injEq]
  apply rankTemples_eq_nil
  intro t ht
  rcases h with rfl | rfl | rfl
  · rw [getDistanceJS_nan_lat1]
    exact jle_none_left _
  · rw [getDistanceJS_nan_lon1]
    exact jle_none_left _
  · simp [jle_none_right]

/-- Witness for C10: a NaN latitude parameter on a one-row catalog. -/
theorem nan_parse_empty_witness :
    templesHandler [T0] none none (some none) (some (some 0)) none = Sum.inr [] :=
  nan_parse_empty [T0] none none none (some 0) none (Or.inl rfl)
